import Mathlib

/-!
Shallow embedding of src/aq_widget.py: AQI breakpoint interpolation,
combined AQI, trend classification, history pruning, sensor selection and
the fetch error paths. Real-number concentrations are modelled as
rationals; the built-in round of Python is modelled as round-half-to-even.
-/

/-- The built-in round of Python on a rational value: round to the nearest
integer, ties resolved to the even neighbour (banker rounding). -/
def pyRound (q : ℚ) : ℤ :=
  if q - ⌊q⌋ < 1/2 then ⌊q⌋
  else if 1/2 < q - ⌊q⌋ then ⌊q⌋ + 1
  else if ⌊q⌋ % 2 = 0 then ⌊q⌋ else ⌊q⌋ + 1

/-- One row (Clow, Chigh, Ilow, Ihigh) of a breakpoint table
(src/aq_widget.py lines 140-156). -/
structure Breakpoint where
  Clow : ℚ
  Chigh : ℚ
  Ilow : ℤ
  Ihigh : ℤ
  deriving DecidableEq

/-- PM25_BREAKPOINTS from src/aq_widget.py lines 140-147. -/
def PM25_BREAKPOINTS : List Breakpoint :=
  [⟨0, 12, 0, 50⟩,
   ⟨12.1, 35.4, 51, 100⟩,
   ⟨35.5, 55.4, 101, 150⟩,
   ⟨55.5, 150.4, 151, 200⟩,
   ⟨150.5, 250.4, 201, 300⟩,
   ⟨250.5, 500.4, 301, 500⟩]

/-- PM10_BREAKPOINTS from src/aq_widget.py lines 149-156. -/
def PM10_BREAKPOINTS : List Breakpoint :=
  [⟨0, 54, 0, 50⟩,
   ⟨55, 154, 51, 100⟩,
   ⟨155, 254, 101, 150⟩,
   ⟨255, 354, 151, 200⟩,
   ⟨355, 424, 201, 300⟩,
   ⟨425, 604, 301, 500⟩]

/-- The linear interpolation inside calc_aqi_from_breakpoints
(src/aq_widget.py line 163):
(Ihigh - Ilow) / (Chigh - Clow) * (C - Clow) + Ilow. -/
def aqi_interp (b : Breakpoint) (C : ℚ) : ℚ :=
  ((b.Ihigh : ℚ) - (b.Ilow : ℚ)) / (b.Chigh - b.Clow) * (C - b.Clow) + (b.Ilow : ℚ)

/-- calc_aqi_from_breakpoints (src/aq_widget.py lines 158-165), on a
non-None concentration: the first row whose range contains C gives the
rounded interpolated index; otherwise None. -/
def calc_aqi_from_breakpoints (C : ℚ) : List Breakpoint → Option ℤ
  | [] => none
  | b :: table =>
    if b.Clow ≤ C ∧ C ≤ b.Chigh then some (pyRound (aqi_interp b C))
    else calc_aqi_from_breakpoints C table

/-- The interpolated index of calc_aqi_from_breakpoints before rounding:
the same table walk, returning the raw rational index. -/
def aqi_raw (C : ℚ) : List Breakpoint → Option ℚ
  | [] => none
  | b :: table =>
    if b.Clow ≤ C ∧ C ≤ b.Chigh then some (aqi_interp b C)
    else aqi_raw C table

/-- calc_aqi (src/aq_widget.py lines 167-173): per-pollutant sub-indices,
then the maximum of the present ones, None when none is present. -/
def calc_aqi (pm25 pm10 : Option ℚ) : Option ℤ :=
  let aqi25 := match pm25 with
    | some c => calc_aqi_from_breakpoints c PM25_BREAKPOINTS
    | none => none
  let aqi10 := match pm10 with
    | some c => calc_aqi_from_breakpoints c PM10_BREAKPOINTS
    | none => none
  match List.filterMap id [aqi25, aqi10] with
  | [] => none
  | v :: vs => some (vs.foldl max v)

/-- trend_icon (src/aq_widget.py lines 189-196). -/
def trend_icon (new old : Option ℤ) : String :=
  match new, old with
  | some n, some o =>
    if o < n then "arrow_up"
    else if n < o then "arrow_down"
    else "arrow_flat"
  | _, _ => "arrow_flat"

/-- One history entry, src/aq_widget.py lines 223-228: a dict with keys
ts, aqi, pm25, pm10. -/
structure HistoryEntry where
  ts : ℚ
  aqi : Option ℤ
  pm25 : Option ℚ
  pm10 : Option ℚ
  deriving DecidableEq

/-- The module constant HOURS_HISTORY (src/aq_widget.py line 30). -/
def HOURS_HISTORY : ℚ := 24

/-- update_history (src/aq_widget.py lines 213-234). The history dict is
modelled as a total map from location key to entry list (missing key means
the empty list, matching history.get(key, [])); the module global
HOURS_HISTORY is passed as the first argument. Appends the new entry,
then keeps only entries with ts - e.ts at most HOURS_HISTORY * 3600. -/
def update_history (hours_history : ℚ) (history : String → List HistoryEntry)
    (key : String) (ts : ℚ) (aqi : Option ℤ) (pm25 pm10 : Option ℚ) :
    String → List HistoryEntry :=
  let entries := history key
  let entries := entries ++ [{ ts := ts, aqi := aqi, pm25 := pm25, pm10 := pm10 }]
  let max_age := hours_history * 3600
  let entries := entries.filter (fun e => ts - e.ts ≤ max_age)
  fun k => if k = key then entries else history k

/-- One element of the sensordatavalues list of a reading
(src/aq_widget.py lines 70-72): value is the float coercion of the raw
value, none when the value is missing or not coercible. -/
structure SensorDataValue where
  value_type : Option String
  value : Option ℚ
  deriving DecidableEq

/-- One entry of the JSON array returned by the area filter endpoint
(src/aq_widget.py lines 89-121): sensor.id, the two timestamp fields, the
float-coerced location coordinates (none when missing or not coercible)
and the measurement list. -/
structure SensorEntry where
  sensor_id : Option ℤ
  timestamp : Option String
  timestamp_measured : Option String
  latitude : Option ℚ
  longitude : Option ℚ
  sensordatavalues : List SensorDataValue
  deriving DecidableEq

/-- The PM2.5 value_type synonyms (src/aq_widget.py line 78). -/
def pm25_types : List String := ["P2", "SDS_P2", "PM2.5", "pm2.5"]

/-- The PM10 value_type synonyms (src/aq_widget.py line 80). -/
def pm10_types : List String := ["P1", "SDS_P1", "PM10", "pm10"]

/-- One iteration of the extract_pm loop (src/aq_widget.py lines 70-82):
skip non-coercible values, assign pm25 or pm10 by value_type, last
assignment wins. -/
def extract_pm_step (acc : Option ℚ × Option ℚ) (sv : SensorDataValue) :
    Option ℚ × Option ℚ :=
  match sv.value with
  | none => acc
  | some val =>
    match sv.value_type with
    | some vt =>
      if vt ∈ pm25_types then (some val, acc.2)
      else if vt ∈ pm10_types then (acc.1, some val)
      else acc
    | none => acc

/-- extract_pm (src/aq_widget.py lines 67-82). -/
def extract_pm (entry : SensorEntry) : Option ℚ × Option ℚ :=
  entry.sensordatavalues.foldl extract_pm_step (none, none)

/-- The Python expression a or b on two optional strings: the first when
it is truthy (present and nonempty), else the second. -/
def py_or_str (a b : Option String) : Option String :=
  match a with
  | some s => if s = "" then b else some s
  | none => b

/-- Truthiness of an optional string: none for None and for the empty
string, the string itself otherwise. -/
def truthy_str : Option String → Option String
  | some s => if s = "" then none else some s
  | none => none

/-- The timestamp the preferred-id loop uses for an entry
(src/aq_widget.py line 93): timestamp or timestamp_measured, then the
truthiness test of the if on line 94. -/
def entry_ts (e : SensorEntry) : Option String :=
  truthy_str (py_or_str e.timestamp e.timestamp_measured)

/-- One iteration of the preferred-id loop (src/aq_widget.py lines
87-96), state (latest_ts, candidate): skip entries whose sensor.id
differs, skip entries without a truthy timestamp, keep the entry with the
greatest timestamp string. -/
def select_by_id_step (sid : ℤ) (st : Option String × Option SensorEntry)
    (e : SensorEntry) : Option String × Option SensorEntry :=
  if e.sensor_id ≠ some sid then st
  else
    match entry_ts e with
    | none => st
    | some s =>
      match st.1 with
      | none => (some s, some e)
      | some latest_ts => if latest_ts < s then (some s, some e) else st

/-- The candidate of the preferred-id loop (src/aq_widget.py lines
87-96). -/
def select_by_id (data : List SensorEntry) (sid : ℤ) : Option SensorEntry :=
  (data.foldl (select_by_id_step sid) (none, none)).2

/-- One iteration of the nearest-sensor loop (src/aq_widget.py lines
111-126), state (best, best_d) with best_d = none standing for the
initial float inf: entries without coercible coordinates are skipped;
dist is the haversine dist_km of lines 102-109, abstracted as a function
argument because no claim depends on its numeric values. -/
def select_nearest_step (dist : ℚ → ℚ → ℚ → ℚ → ℚ) (lat lon : ℚ)
    (st : Option SensorEntry × Option ℚ) (e : SensorEntry) :
    Option SensorEntry × Option ℚ :=
  match e.latitude, e.longitude with
  | some slat, some slon =>
    let d := dist lat lon slat slon
    match st.2 with
    | none => (some e, some d)
    | some best_d => if d < best_d then (some e, some d) else st
  | _, _ => st

/-- The best entry of the nearest-sensor loop (src/aq_widget.py lines
111-127). -/
def select_nearest (dist : ℚ → ℚ → ℚ → ℚ → ℚ) (lat lon : ℚ)
    (data : List SensorEntry) : Option SensorEntry :=
  (data.foldl (select_nearest_step dist lat lon) (none, none)).1

/-- The candidate selection of fetch_sensor_data (src/aq_widget.py lines
84-131): the preferred-id candidate when sensor_id is given, with
fallback to the nearest sensor whenever that candidate is None. -/
def select_candidate (dist : ℚ → ℚ → ℚ → ℚ → ℚ) (lat lon : ℚ)
    (data : List SensorEntry) (sensor_id : Option ℤ) : Option SensorEntry :=
  let candidate := match sensor_id with
    | some sid => select_by_id data sid
    | none => none
  match candidate with
  | some c => some c
  | none => select_nearest dist lat lon data

/-- The parse outcome of resp.json() (src/aq_widget.py line 61): an
exception for an unparseable body, otherwise a JSON value that is or is
not a list of readings. -/
inductive JsonBody where
  | invalid
  | nonList
  | list (entries : List SensorEntry)
  deriving DecidableEq

/-- The outcome of requests.get (src/aq_widget.py line 59): a raised
connection error, or a response with a status code and a body. -/
inductive HttpResult where
  | connectionError
  | response (status : ℕ) (body : JsonBody)
  deriving DecidableEq

/-- fetch_sensor_data (src/aq_widget.py lines 51-135) over a modelled
HTTP outcome. Raised exceptions are modelled as Except.error:
requests.get raises on an unreachable endpoint, resp.raise_for_status()
raises for a 4xx or 5xx status, resp.json() raises on an unparseable
body. A non-list or empty body, or a failed selection, returns
(None, None). -/
def fetch_sensor_data (dist : ℚ → ℚ → ℚ → ℚ → ℚ) (lat lon : ℚ)
    (sensor_id : Option ℤ) (resp : HttpResult) :
    Except String (Option ℚ × Option ℚ) :=
  match resp with
  | .connectionError => .error "requests.ConnectionError"
  | .response status body =>
    if 400 ≤ status ∧ status < 600 then .error "requests.HTTPError"
    else
      match body with
      | .invalid => .error "json.JSONDecodeError"
      | .nonList => .ok (none, none)
      | .list data =>
        if data = [] then .ok (none, none)
        else
          match select_candidate dist lat lon data sensor_id with
          | none => .ok (none, none)
          | some candidate => .ok (extract_pm candidate)

/-- One configured location (src/aq_widget.py lines 13-26). -/
structure LocationCfg where
  lat : ℚ
  lon : ℚ
  sensor_id : Option ℤ
  deriving DecidableEq

/-- The per-location loop of main (src/aq_widget.py lines 341-348):
fetch_sensor_data is called for each location in order with no exception
handler, so a raised exception aborts the whole loop and no later
location is processed. -/
def main_fetch_all (dist : ℚ → ℚ → ℚ → ℚ → ℚ)
    (locs : List (LocationCfg × HttpResult)) :
    Except String (List (Option ℚ × Option ℚ)) :=
  locs.mapM (fun lc => fetch_sensor_data dist lc.1.lat lc.1.lon lc.1.sensor_id lc.2)

/-- The state of a persisted snapshot file: missing, existing but
unreadable (read_text raises), or readable with some contents. -/
inductive FileState where
  | missing
  | unreadable
  | contents (s : String)

/-- path.exists() for a modelled file. -/
def path_exists : FileState → Bool
  | .missing => false
  | .unreadable => true
  | .contents _ => true

/-- path.read_text() for a modelled file: raises (Except.error) when the
file is unreadable. -/
def read_text : FileState → Except String String
  | .missing => .error "FileNotFoundError"
  | .unreadable => .error "OSError"
  | .contents s => .ok s

/-- load_json (src/aq_widget.py lines 201-207): json.loads is abstracted
as a parser argument that either parses the contents or raises. Any
exception inside the try block falls back to the default; a missing file
returns the default. -/
def load_json {J : Type} (file : FileState)
    (json_loads : String → Except String J) (default_val : J) : J :=
  if path_exists file then
    match read_text file with
    | .ok s =>
      match json_loads s with
      | .ok v => v
      | .error _ => default_val
    | .error _ => default_val
  else default_val

/-- The invariant of the preferred-id loop state: nothing selected yet,
or a latest timestamp together with a candidate whose sensor id is the
preferred one. -/
def IdInv (sid : ℤ) (st : Option String × Option SensorEntry) : Prop :=
  (st.1 = none ∧ st.2 = none) ∨
    ∃ s c, st.1 = some s ∧ st.2 = some c ∧ c.sensor_id = some sid

/-- The activated form of the preferred-id loop state: a candidate with
the preferred sensor id is selected. -/
def IdRight (sid : ℤ) (st : Option String × Option SensorEntry) : Prop :=
  ∃ s c, st.1 = some s ∧ st.2 = some c ∧ c.sensor_id = some sid

/-- A reading whose sensor id matches the preferred id but which carries
no timestamp, used as concrete input for claim C1. -/
def cex_match_entry : SensorEntry :=
  { sensor_id := some 83131, timestamp := none, timestamp_measured := none,
    latitude := none, longitude := none, sensordatavalues := [] }

/-- A reading with a different sensor id, a timestamp and coordinates,
used as concrete input for claim C1. -/
def cex_other_entry : SensorEntry :=
  { sensor_id := some 80868, timestamp := some "2024-05-01 10:00:00",
    timestamp_measured := none, latitude := some 40, longitude := some 44,
    sensordatavalues := [] }

/-- A reading whose sensor id matches the preferred id and which carries
a timestamp, used as concrete input for claim C1. -/
def witness_entry : SensorEntry :=
  { sensor_id := some 83131, timestamp := some "2024-05-01 10:00:00",
    timestamp_measured := none, latitude := some 40, longitude := some 44,
    sensordatavalues := [] }

/-- A concrete history map for the claim C5 witness: one location with
one entry exactly at the retention boundary and one just beyond it. -/
def histW : String → List HistoryEntry :=
  fun k =>
    if k = "home" then
      [{ ts := 113600, aqi := some 5, pm25 := none, pm10 := none },
       { ts := 113599, aqi := some 7, pm25 := none, pm10 := none }]
    else []

/-- Claim C7: the canonical PM2.5 boundary values: 35.4 maps to AQI 100,
35.5 to 101, 12.0 to 50 and 12.1 to 51. -/
theorem aqi_boundary_values :
    calc_aqi_from_breakpoints 35.4 PM25_BREAKPOINTS = some 100
    ∧ calc_aqi_from_breakpoints 35.5 PM25_BREAKPOINTS = some 101
    ∧ calc_aqi_from_breakpoints 12 PM25_BREAKPOINTS = some 50
    ∧ calc_aqi_from_breakpoints 12.1 PM25_BREAKPOINTS = some 51 := by
  refine ⟨?_, ?_, ?_, ?_⟩ <;>
    norm_num [PM25_BREAKPOINTS, calc_aqi_from_breakpoints, aqi_interp, pyRound]

/-- Bounds of the rounding: pyRound q lies between the floor of q and the
floor of q plus one. -/
theorem pyRound_bounds (q : ℚ) : ⌊q⌋ ≤ pyRound q ∧ pyRound q ≤ ⌊q⌋ + 1 := by
  unfold pyRound
  split_ifs <;> omega

/-- Round-half-to-even is monotone. -/
theorem pyRound_mono {q1 q2 : ℚ} (h : q1 ≤ q2) : pyRound q1 ≤ pyRound q2 := by
  by_cases hf : ⌊q1⌋ = ⌊q2⌋
  · unfold pyRound
    rw [← hf]
    have hfr : q1 - ⌊q1⌋ ≤ q2 - ⌊q1⌋ := by linarith
    split_ifs <;> first | omega | linarith
  · have hlt : ⌊q1⌋ < ⌊q2⌋ :=
      lt_of_le_of_ne (Int.floor_le_floor h) hf
    have b1 := pyRound_bounds q1
    have b2 := pyRound_bounds q2
    omega

/-- The interpolation of a row with a nondegenerate range and a
nondecreasing index range is monotone in the concentration. -/
theorem aqi_interp_mono (b : Breakpoint) (hC : b.Clow < b.Chigh)
    (hI : b.Ilow ≤ b.Ihigh) {C1 C2 : ℚ} (h12 : C1 ≤ C2) :
    aqi_interp b C1 ≤ aqi_interp b C2 := by
  have hden : (0 : ℚ) < b.Chigh - b.Clow := by linarith
  have hnum : (0 : ℚ) ≤ (b.Ihigh : ℚ) - (b.Ilow : ℚ) := by
    have : (b.Ilow : ℚ) ≤ (b.Ihigh : ℚ) := by exact_mod_cast hI
    linarith
  have hm : (0 : ℚ) ≤ ((b.Ihigh : ℚ) - (b.Ilow : ℚ)) / (b.Chigh - b.Clow) :=
    div_nonneg hnum (le_of_lt hden)
  have key : aqi_interp b C2 - aqi_interp b C1
      = ((b.Ihigh : ℚ) - (b.Ilow : ℚ)) / (b.Chigh - b.Clow) * (C2 - C1) := by
    unfold aqi_interp; ring
  nlinarith [mul_nonneg hm (sub_nonneg.mpr h12)]

/-- Reduction of the table walk at a matching head row. -/
theorem calc_cons_pos (b : Breakpoint) (rest : List Breakpoint) (C : ℚ)
    (h1 : b.Clow ≤ C) (h2 : C ≤ b.Chigh) :
    calc_aqi_from_breakpoints C (b :: rest) = some (pyRound (aqi_interp b C)) := by
  simp [calc_aqi_from_breakpoints, h1, h2]

/-- Reduction of the table walk at a non-matching head row. -/
theorem calc_cons_neg (b : Breakpoint) (rest : List Breakpoint) (C : ℚ)
    (h : ¬(b.Clow ≤ C ∧ C ≤ b.Chigh)) :
    calc_aqi_from_breakpoints C (b :: rest) = calc_aqi_from_breakpoints C rest := by
  simp only [calc_aqi_from_breakpoints, if_neg h]

/-- In a table whose rows are pairwise ordered with gaps, the index of a
concentration lying in the range of a member row is the rounded
interpolation of that row. -/
theorem calc_eq_interp_of_mem (t : List Breakpoint)
    (hd : t.Pairwise (fun a b => a.Chigh < b.Clow)) {b : Breakpoint}
    (hb : b ∈ t) {C : ℚ} (h1 : b.Clow ≤ C) (h2 : C ≤ b.Chigh) :
    calc_aqi_from_breakpoints C t = some (pyRound (aqi_interp b C)) := by
  induction t with
  | nil => cases hb
  | cons a rest ih =>
    rcases List.mem_cons.mp hb with rfl | hb2
    · exact calc_cons_pos b rest C h1 h2
    · have ha : a.Chigh < b.Clow := (List.pairwise_cons.mp hd).1 b hb2
      rw [calc_cons_neg a rest C (fun hc => absurd hc.2 (by linarith))]
      exact ih (List.pairwise_cons.mp hd).2 hb2

/-- Claim C8: within a single row of either breakpoint table the rounded
interpolation is monotonically non-decreasing in the concentration. -/
theorem aqi_mono_within_bucket (t : List Breakpoint)
    (ht : t = PM25_BREAKPOINTS ∨ t = PM10_BREAKPOINTS) (b : Breakpoint)
    (hb : b ∈ t) (C1 C2 : ℚ) (hlo : b.Clow ≤ C1) (h12 : C1 ≤ C2)
    (hhi : C2 ≤ b.Chigh) :
    ∃ a1 a2, calc_aqi_from_breakpoints C1 t = some a1
      ∧ calc_aqi_from_breakpoints C2 t = some a2 ∧ a1 ≤ a2 := by
  have hd : t.Pairwise (fun a b => a.Chigh < b.Clow) := by
    rcases ht with rfl | rfl <;>
      norm_num [PM25_BREAKPOINTS, PM10_BREAKPOINTS, List.pairwise_cons]
  have hwf : b.Clow < b.Chigh ∧ b.Ilow ≤ b.Ihigh := by
    have hall : ∀ x ∈ t, x.Clow < x.Chigh ∧ x.Ilow ≤ x.Ihigh := by
      rcases ht with rfl | rfl <;>
        norm_num [PM25_BREAKPOINTS, PM10_BREAKPOINTS, List.forall_mem_cons]
    exact hall b hb
  exact ⟨pyRound (aqi_interp b C1), pyRound (aqi_interp b C2),
    calc_eq_interp_of_mem t hd hb hlo (le_trans h12 hhi),
    calc_eq_interp_of_mem t hd hb (le_trans hlo h12) hhi,
    pyRound_mono (aqi_interp_mono b hwf.1 hwf.2 h12)⟩

/-- Witness for claim C8 at the second PM2.5 row with concentrations 13
and 20. -/
theorem aqi_mono_within_bucket_witness :
    ∃ a1 a2, calc_aqi_from_breakpoints 13 PM25_BREAKPOINTS = some a1
      ∧ calc_aqi_from_breakpoints 20 PM25_BREAKPOINTS = some a2 ∧ a1 ≤ a2 :=
  aqi_mono_within_bucket PM25_BREAKPOINTS (Or.inl rfl) ⟨12.1, 35.4, 51, 100⟩
    (by norm_num [PM25_BREAKPOINTS]) 13 20 (by norm_num) (by norm_num) (by norm_num)

/-- Counterexample for claim C3: 12.05 lies between 0 and the top PM2.5
high bound 500.4 and 54.5 lies between 0 and the top PM10 high bound 604,
yet both concentrations fall in an inter-row gap and get no index. -/
theorem aqi_gap_cex :
    (0 : ℚ) ≤ 241/20 ∧ (241/20 : ℚ) ≤ 500.4
    ∧ calc_aqi_from_breakpoints (241/20) PM25_BREAKPOINTS = none
    ∧ (0 : ℚ) ≤ 109/2 ∧ (109/2 : ℚ) ≤ 604
    ∧ calc_aqi_from_breakpoints (109/2) PM10_BREAKPOINTS = none := by
  refine ⟨by norm_num, by norm_num, ?_, by norm_num, by norm_num, ?_⟩ <;>
    norm_num [PM25_BREAKPOINTS, PM10_BREAKPOINTS, calc_aqi_from_breakpoints]

/-- Claim C3 (amended): the index is absent exactly when the
concentration lies in the range of no row: below 0, above the top high
bound, or inside one of the gaps the non-contiguous tables leave between
consecutive rows. -/
theorem aqi_none_iff_no_bucket (C : ℚ) :
    (calc_aqi_from_breakpoints C PM25_BREAKPOINTS = none ↔
      C < 0 ∨ (12 < C ∧ C < 12.1) ∨ (35.4 < C ∧ C < 35.5)
        ∨ (55.4 < C ∧ C < 55.5) ∨ (150.4 < C ∧ C < 150.5)
        ∨ (250.4 < C ∧ C < 250.5) ∨ 500.4 < C)
    ∧ (calc_aqi_from_breakpoints C PM10_BREAKPOINTS = none ↔
      C < 0 ∨ (54 < C ∧ C < 55) ∨ (154 < C ∧ C < 155)
        ∨ (254 < C ∧ C < 255) ∨ (354 < C ∧ C < 355)
        ∨ (424 < C ∧ C < 425) ∨ 604 < C) := by
  constructor
  · simp only [PM25_BREAKPOINTS, calc_aqi_from_breakpoints]
    split_ifs with h1 h2 h3 h4 h5 h6
    · refine iff_of_false (by simp) ?_
      rintro (h | ⟨ha, hb⟩ | ⟨ha, hb⟩ | ⟨ha, hb⟩ | ⟨ha, hb⟩ | ⟨ha, hb⟩ | h) <;>
        · obtain ⟨hl, hr⟩ := h1; norm_num at hl hr ⊢; linarith
    · refine iff_of_false (by simp) ?_
      rintro (h | ⟨ha, hb⟩ | ⟨ha, hb⟩ | ⟨ha, hb⟩ | ⟨ha, hb⟩ | ⟨ha, hb⟩ | h) <;>
        · obtain ⟨hl, hr⟩ := h2; norm_num at hl hr ⊢; linarith
    · refine iff_of_false (by simp) ?_
      rintro (h | ⟨ha, hb⟩ | ⟨ha, hb⟩ | ⟨ha, hb⟩ | ⟨ha, hb⟩ | ⟨ha, hb⟩ | h) <;>
        · obtain ⟨hl, hr⟩ := h3; norm_num at hl hr ⊢; linarith
    · refine iff_of_false (by simp) ?_
      rintro (h | ⟨ha, hb⟩ | ⟨ha, hb⟩ | ⟨ha, hb⟩ | ⟨ha, hb⟩ | ⟨ha, hb⟩ | h) <;>
        · obtain ⟨hl, hr⟩ := h4; norm_num at hl hr ⊢; linarith
    · refine iff_of_false (by simp) ?_
      rintro (h | ⟨ha, hb⟩ | ⟨ha, hb⟩ | ⟨ha, hb⟩ | ⟨ha, hb⟩ | ⟨ha, hb⟩ | h) <;>
        · obtain ⟨hl, hr⟩ := h5; norm_num at hl hr ⊢; linarith
    · refine iff_of_false (by simp) ?_
      rintro (h | ⟨ha, hb⟩ | ⟨ha, hb⟩ | ⟨ha, hb⟩ | ⟨ha, hb⟩ | ⟨ha, hb⟩ | h) <;>
        · obtain ⟨hl, hr⟩ := h6; norm_num at hl hr ⊢; linarith
    · push_neg at h1 h2 h3 h4 h5 h6
      refine iff_of_true rfl ?_
      rcases lt_or_le C 0 with h0 | h0
      · exact Or.inl h0
      have t1 := h1 h0
      rcases lt_or_le C 12.1 with g1 | g1
      · exact Or.inr (Or.inl ⟨t1, g1⟩)
      have t2 := h2 g1
      rcases lt_or_le C 35.5 with g2 | g2
      · exact Or.inr (Or.inr (Or.inl ⟨t2, g2⟩))
      have t3 := h3 g2
      rcases lt_or_le C 55.5 with g3 | g3
      · exact Or.inr (Or.inr (Or.inr (Or.inl ⟨t3, g3⟩)))
      have t4 := h4 g3
      rcases lt_or_le C 150.5 with g4 | g4
      · exact Or.inr (Or.inr (Or.inr (Or.inr (Or.inl ⟨t4, g4⟩))))
      have t5 := h5 g4
      rcases lt_or_le C 250.5 with g5 | g5
      · exact Or.inr (Or.inr (Or.inr (Or.inr (Or.inr (Or.inl ⟨t5, g5⟩)))))
      have t6 := h6 g5
      exact Or.inr (Or.inr (Or.inr (Or.inr (Or.inr (Or.inr t6)))))
  · simp only [PM10_BREAKPOINTS, calc_aqi_from_breakpoints]
    split_ifs with h1 h2 h3 h4 h5 h6
    · refine iff_of_false (by simp) ?_
      rintro (h | ⟨ha, hb⟩ | ⟨ha, hb⟩ | ⟨ha, hb⟩ | ⟨ha, hb⟩ | ⟨ha, hb⟩ | h) <;>
        · obtain ⟨hl, hr⟩ := h1; norm_num at hl hr ⊢; linarith
    · refine iff_of_false (by simp) ?_
      rintro (h | ⟨ha, hb⟩ | ⟨ha, hb⟩ | ⟨ha, hb⟩ | ⟨ha, hb⟩ | ⟨ha, hb⟩ | h) <;>
        · obtain ⟨hl, hr⟩ := h2; norm_num at hl hr ⊢; linarith
    · refine iff_of_false (by simp) ?_
      rintro (h | ⟨ha, hb⟩ | ⟨ha, hb⟩ | ⟨ha, hb⟩ | ⟨ha, hb⟩ | ⟨ha, hb⟩ | h) <;>
        · obtain ⟨hl, hr⟩ := h3; norm_num at hl hr ⊢; linarith
    · refine iff_of_false (by simp) ?_
      rintro (h | ⟨ha, hb⟩ | ⟨ha, hb⟩ | ⟨ha, hb⟩ | ⟨ha, hb⟩ | ⟨ha, hb⟩ | h) <;>
        · obtain ⟨hl, hr⟩ := h4; norm_num at hl hr ⊢; linarith
    · refine iff_of_false (by simp) ?_
      rintro (h | ⟨ha, hb⟩ | ⟨ha, hb⟩ | ⟨ha, hb⟩ | ⟨ha, hb⟩ | ⟨ha, hb⟩ | h) <;>
        · obtain ⟨hl, hr⟩ := h5; norm_num at hl hr ⊢; linarith
    · refine iff_of_false (by simp) ?_
      rintro (h | ⟨ha, hb⟩ | ⟨ha, hb⟩ | ⟨ha, hb⟩ | ⟨ha, hb⟩ | ⟨ha, hb⟩ | h) <;>
        · obtain ⟨hl, hr⟩ := h6; norm_num at hl hr ⊢; linarith
    · push_neg at h1 h2 h3 h4 h5 h6
      refine iff_of_true rfl ?_
      rcases lt_or_le C 0 with h0 | h0
      · exact Or.inl h0
      have t1 := h1 h0
      rcases lt_or_le C 55 with g1 | g1
      · exact Or.inr (Or.inl ⟨t1, g1⟩)
      have t2 := h2 g1
      rcases lt_or_le C 155 with g2 | g2
      · exact Or.inr (Or.inr (Or.inl ⟨t2, g2⟩))
      have t3 := h3 g2
      rcases lt_or_le C 255 with g3 | g3
      · exact Or.inr (Or.inr (Or.inr (Or.inl ⟨t3, g3⟩)))
      have t4 := h4 g3
      rcases lt_or_le C 355 with g4 | g4
      · exact Or.inr (Or.inr (Or.inr (Or.inr (Or.inl ⟨t4, g4⟩))))
      have t5 := h5 g4
      rcases lt_or_le C 425 with g5 | g5
      · exact Or.inr (Or.inr (Or.inr (Or.inr (Or.inr (Or.inl ⟨t5, g5⟩)))))
      have t6 := h6 g5
      exact Or.inr (Or.inr (Or.inr (Or.inr (Or.inr (Or.inr t6)))))

/-- At an exact half-integer, pyRound picks the even neighbour, at
distance one half. -/
theorem pyRound_half_even (q : ℚ) (h : q - ⌊q⌋ = 1/2) :
    pyRound q % 2 = 0 ∧ |(pyRound q : ℚ) - q| = 1/2 := by
  have h1 : ¬(q - ⌊q⌋ < 1/2) := by rw [h]; exact lt_irrefl _
  have h2 : ¬((1 : ℚ)/2 < q - ⌊q⌋) := by rw [h]; exact lt_irrefl _
  unfold pyRound
  rw [if_neg h1, if_neg h2]
  by_cases hpar : ⌊q⌋ % 2 = 0
  · rw [if_pos hpar]
    refine ⟨hpar, ?_⟩
    have hv : (⌊q⌋ : ℚ) - q = -(1/2) := by linarith
    rw [hv, abs_neg, abs_of_pos (by norm_num : (0:ℚ) < 1/2)]
  · rw [if_neg hpar]
    refine ⟨by omega, ?_⟩
    have hv : ((⌊q⌋ + 1 : ℤ) : ℚ) - q = 1/2 := by push_cast; linarith
    rw [hv, abs_of_pos (by norm_num : (0:ℚ) < 1/2)]

/-- Claim C10: when the interpolated raw index is an exact half-integer,
the table walk returns the nearest even integer (banker rounding), not
the value rounded away from zero. -/
theorem aqi_round_half_to_even (C : ℚ) (t : List Breakpoint) (r : ℚ)
    (hr : aqi_raw C t = some r) (hhalf : r - ⌊r⌋ = 1/2) :
    ∃ z, calc_aqi_from_breakpoints C t = some z
      ∧ z % 2 = 0 ∧ |(z : ℚ) - r| = 1/2 := by
  induction t with
  | nil => cases hr
  | cons b rest ih =>
    by_cases hc : b.Clow ≤ C ∧ C ≤ b.Chigh
    · simp only [aqi_raw, if_pos hc, Option.some.injEq] at hr
      subst hr
      refine ⟨pyRound (aqi_interp b C), ?_, pyRound_half_even _ hhalf⟩
      simp only [calc_aqi_from_breakpoints, if_pos hc]
    · simp only [aqi_raw, if_neg hc] at hr
      simpa only [calc_aqi_from_breakpoints, if_neg hc] using ih hr

/-- Witness for claim C10: PM2.5 concentration 0.12 has raw index 1/2 in
the first row and the returned index is the even neighbour 0. -/
theorem aqi_round_half_to_even_witness :
    ∃ z, calc_aqi_from_breakpoints (3/25) PM25_BREAKPOINTS = some z
      ∧ z % 2 = 0 ∧ |(z : ℚ) - 1/2| = 1/2 :=
  aqi_round_half_to_even (3/25) PM25_BREAKPOINTS (1/2)
    (by norm_num [aqi_raw, PM25_BREAKPOINTS, aqi_interp]) (by norm_num)

/-- Claim C4: the combined AQI is the maximum of the two sub-indices when
both are present, the single present one when exactly one is present, and
absent when neither is (in particular when a present concentration lies
in no row of its table). -/
theorem calc_aqi_eq_combine (pm25 pm10 : Option ℚ) :
    calc_aqi pm25 pm10 =
      match Option.bind pm25 (fun c => calc_aqi_from_breakpoints c PM25_BREAKPOINTS),
          Option.bind pm10 (fun c => calc_aqi_from_breakpoints c PM10_BREAKPOINTS) with
      | some a, some b => some (max a b)
      | some a, none => some a
      | none, some b => some b
      | none, none => none := by
  rcases pm25 with _ | c25 <;> rcases pm10 with _ | c10
  · rfl
  · rcases h10 : calc_aqi_from_breakpoints c10 PM10_BREAKPOINTS with _ | b <;>
      simp [calc_aqi, h10, List.filterMap]
  · rcases h25 : calc_aqi_from_breakpoints c25 PM25_BREAKPOINTS with _ | a <;>
      simp [calc_aqi, h25, List.filterMap]
  · rcases h25 : calc_aqi_from_breakpoints c25 PM25_BREAKPOINTS with _ | a <;>
      rcases h10 : calc_aqi_from_breakpoints c10 PM10_BREAKPOINTS with _ | b <;>
      simp [calc_aqi, h25, h10, List.filterMap]

/-- Claim C5: after an append at time ts with retention window
hours_history * 3600 seconds, the sequence at the key is exactly the
prior entries aged at most the window (boundary inclusive, ages measured
against the appended ts), in their original order, followed by the new
entry. -/
theorem update_history_spec (hours_history : ℚ) (hpos : 0 ≤ hours_history)
    (history : String → List HistoryEntry) (key : String) (ts : ℚ)
    (aqi : Option ℤ) (pm25 pm10 : Option ℚ) :
    update_history hours_history history key ts aqi pm25 pm10 key
      = (history key).filter (fun e => ts - e.ts ≤ hours_history * 3600)
        ++ [{ ts := ts, aqi := aqi, pm25 := pm25, pm10 := pm10 }] := by
  have hnew : ts - ts ≤ hours_history * 3600 := by
    have h1 : (0 : ℚ) ≤ hours_history * 3600 :=
      mul_nonneg hpos (by norm_num)
    linarith
  simp [update_history, List.filter_append, List.filter_cons, hnew, hpos]

/-- Witness for claim C5 with the code value HOURS_HISTORY = 24: the
entry aged exactly 86400 seconds is retained, the one aged 86401 is
dropped, and the new entry is appended last. -/
theorem update_history_spec_witness :
    update_history 24 histW "home" 200000 (some 42) none none "home"
      = [{ ts := 113600, aqi := some 5, pm25 := none, pm10 := none },
         { ts := 200000, aqi := some 42, pm25 := none, pm10 := none }] := by
  rw [update_history_spec 24 (by norm_num) histW "home" 200000 (some 42) none none]
  norm_num [histW, List.filter_cons]

/-- Claim C6: the trend is flat whenever either value is absent, up when
both are present with the new one greater, down when smaller, flat when
equal; in particular the trend of a value against itself is flat. -/
theorem trend_icon_spec (new old : Option ℤ) :
    (new = none ∨ old = none → trend_icon new old = "arrow_flat")
    ∧ (∀ n o, new = some n → old = some o →
        (o < n → trend_icon new old = "arrow_up")
        ∧ (n < o → trend_icon new old = "arrow_down")
        ∧ (n = o → trend_icon new old = "arrow_flat"))
    ∧ trend_icon new new = "arrow_flat" := by
  refine ⟨?_, ?_, ?_⟩
  · rintro (rfl | rfl)
    · cases old <;> rfl
    · cases new <;> rfl
  · rintro n o rfl rfl
    refine ⟨fun h => ?_, fun h => ?_, fun h => ?_⟩
    · simp [trend_icon, h]
    · simp [trend_icon, h, not_lt_of_gt h]
    · subst h; simp [trend_icon]
  · cases new with
    | none => rfl
    | some n => simp [trend_icon]

/-- Claim C9: loading a persisted snapshot that is missing, unreadable or
whose contents do not parse returns the supplied default instead of
raising. -/
theorem load_json_defaults {J : Type} (json_loads : String → Except String J)
    (default_val : J) :
    load_json .missing json_loads default_val = default_val
    ∧ load_json .unreadable json_loads default_val = default_val
    ∧ ∀ s e, json_loads s = .error e →
        load_json (.contents s) json_loads default_val = default_val := by
  refine ⟨rfl, rfl, fun s e he => ?_⟩
  simp [load_json, path_exists, read_text, he]

/-- The preferred-id loop step preserves the state invariant. -/
theorem select_by_id_step_inv (sid : ℤ) (st : Option String × Option SensorEntry)
    (e : SensorEntry) (h : IdInv sid st) : IdInv sid (select_by_id_step sid st e) := by
  obtain ⟨st1, st2⟩ := st
  unfold select_by_id_step
  by_cases hid : e.sensor_id ≠ some sid
  · rw [if_pos hid]; exact h
  · rw [if_neg hid]
    have hide : e.sensor_id = some sid := not_not.mp hid
    rcases hts : entry_ts e with _ | s
    · exact h
    · rcases st1 with _ | latest
      · exact Or.inr ⟨s, e, rfl, rfl, hide⟩
      · by_cases hlt : latest < s
        · simp only [if_pos hlt]
          exact Or.inr ⟨s, e, rfl, rfl, hide⟩
        · simp only [if_neg hlt]
          exact h

/-- The preferred-id loop step preserves an activated state. -/
theorem select_by_id_step_right (sid : ℤ) (st : Option String × Option SensorEntry)
    (e : SensorEntry) (h : IdRight sid st) : IdRight sid (select_by_id_step sid st e) := by
  obtain ⟨st1, st2⟩ := st
  obtain ⟨s0, c0, h1, h2, h3⟩ := h
  dsimp only at h1 h2
  subst h1; subst h2
  unfold select_by_id_step
  by_cases hid : e.sensor_id ≠ some sid
  · rw [if_pos hid]; exact ⟨s0, c0, rfl, rfl, h3⟩
  · rw [if_neg hid]
    have hide : e.sensor_id = some sid := not_not.mp hid
    rcases hts : entry_ts e with _ | s
    · exact ⟨s0, c0, rfl, rfl, h3⟩
    · by_cases hlt : s0 < s
      · simp only [if_pos hlt]
        exact ⟨s, e, rfl, rfl, hide⟩
      · simp only [if_neg hlt]
        exact ⟨s0, c0, rfl, rfl, h3⟩

/-- A matching entry with a truthy timestamp activates the preferred-id
loop state. -/
theorem select_by_id_step_activate (sid : ℤ) (st : Option String × Option SensorEntry)
    (e : SensorEntry) (hinv : IdInv sid st) (hid : e.sensor_id = some sid)
    (hts : entry_ts e ≠ none) : IdRight sid (select_by_id_step sid st e) := by
  rcases hinv with ⟨h1, h2⟩ | hr
  · obtain ⟨st1, st2⟩ := st
    dsimp only at h1 h2
    subst h1; subst h2
    unfold select_by_id_step
    rw [if_neg (not_not.mpr hid)]
    rcases hts2 : entry_ts e with _ | s
    · exact absurd hts2 hts
    · exact ⟨s, e, rfl, rfl, hid⟩
  · exact select_by_id_step_right sid st e hr

/-- Folding the preferred-id loop from an activated state stays
activated. -/
theorem foldl_id_right (sid : ℤ) (l : List SensorEntry)
    (st : Option String × Option SensorEntry) (h : IdRight sid st) :
    IdRight sid (l.foldl (select_by_id_step sid) st) := by
  induction l generalizing st with
  | nil => exact h
  | cons e l ih => exact ih _ (select_by_id_step_right sid st e h)

/-- Folding the preferred-id loop over a list containing a matching entry
with a truthy timestamp ends activated. -/
theorem foldl_id_activate (sid : ℤ) (l : List SensorEntry)
    (st : Option String × Option SensorEntry) (hinv : IdInv sid st)
    (h : ∃ e ∈ l, e.sensor_id = some sid ∧ entry_ts e ≠ none) :
    IdRight sid (l.foldl (select_by_id_step sid) st) := by
  induction l generalizing st with
  | nil =>
    obtain ⟨e, he, -, -⟩ := h
    cases he
  | cons a l ih =>
    obtain ⟨e, he, hide, htse⟩ := h
    rcases List.mem_cons.mp he with rfl | hel
    · exact foldl_id_right sid l _
        (select_by_id_step_activate sid st e hinv hide htse)
    · exact ih _ (select_by_id_step_inv sid st a hinv) ⟨e, hel, hide, htse⟩

/-- Claim C1 (amended): when some reading matches the preferred sensor id
AND carries a truthy timestamp, the resolver returns a reading with the
preferred id and never falls back to nearest-distance selection. -/
theorem preferred_id_no_fallback (dist : ℚ → ℚ → ℚ → ℚ → ℚ) (lat lon : ℚ)
    (data : List SensorEntry) (sid : ℤ)
    (h : ∃ e ∈ data, e.sensor_id = some sid ∧ entry_ts e ≠ none) :
    ∃ c, select_candidate dist lat lon data (some sid) = some c
      ∧ c.sensor_id = some sid := by
  obtain ⟨s, c, -, h2, h3⟩ :=
    foldl_id_activate sid data (none, none) (Or.inl ⟨rfl, rfl⟩) h
  refine ⟨c, ?_, h3⟩
  simp only [select_candidate, select_by_id, h2]

/-- Witness for claim C1: a single reading with the preferred id 83131
and a timestamp is returned by the resolver. -/
theorem preferred_id_no_fallback_witness :
    ∃ c, select_candidate (fun _ _ _ _ => 0) 40 44 [witness_entry] (some 83131)
        = some c ∧ c.sensor_id = some 83131 :=
  preferred_id_no_fallback (fun _ _ _ _ => 0) 40 44 [witness_entry] 83131
    ⟨witness_entry, List.mem_singleton.mpr rfl, rfl,
      by simp [entry_ts, py_or_str, truthy_str, witness_entry]⟩

/-- Counterexample for claim C1: the only reading matching the preferred
id 83131 has no timestamp, and the resolver falls back to
nearest-distance selection, returning a reading with a different sensor
id. -/
theorem preferred_id_fallback_cex :
    cex_match_entry.sensor_id = some 83131
    ∧ select_candidate (fun _ _ _ _ => 0) 40 44 [cex_match_entry, cex_other_entry]
        (some 83131) = some cex_other_entry
    ∧ cex_other_entry.sensor_id ≠ some 83131 := by
  refine ⟨rfl, rfl, ?_⟩
  intro h
  simp [cex_other_entry] at h

/-- Claim C2 (amended): an OK response whose JSON body is not a list or
is the empty list yields the absent pair for that location, but an
unreachable endpoint, an HTTP error status or an unparseable body raises
out of fetch_sensor_data, and the per-location loop of main, which has no
exception handler, then aborts without processing the remaining
locations. -/
theorem fetch_failure_behavior (dist : ℚ → ℚ → ℚ → ℚ → ℚ) (lat lon : ℚ)
    (sid : Option ℤ) (status : ℕ) (body : JsonBody) (cfg1 cfg2 : LocationCfg)
    (r2 : HttpResult) :
    (fetch_sensor_data dist lat lon sid .connectionError
        = .error "requests.ConnectionError")
    ∧ (400 ≤ status → status < 600 →
        fetch_sensor_data dist lat lon sid (.response status body)
          = .error "requests.HTTPError")
    ∧ (status < 400 →
        fetch_sensor_data dist lat lon sid (.response status .invalid)
          = .error "json.JSONDecodeError")
    ∧ (status < 400 →
        fetch_sensor_data dist lat lon sid (.response status .nonList)
          = .ok (none, none))
    ∧ (status < 400 →
        fetch_sensor_data dist lat lon sid (.response status (.list []))
          = .ok (none, none))
    ∧ main_fetch_all dist [(cfg1, .connectionError), (cfg2, r2)]
        = .error "requests.ConnectionError" := by
  refine ⟨rfl, fun h1 h2 => ?_, fun h => ?_, fun h => ?_, fun h => ?_, rfl⟩
  · simp only [fetch_sensor_data]
    rw [if_pos ⟨h1, h2⟩]
  · simp only [fetch_sensor_data]
    rw [if_neg (by omega : ¬(400 ≤ status ∧ status < 600))]
  · simp only [fetch_sensor_data]
    rw [if_neg (by omega : ¬(400 ≤ status ∧ status < 600))]
  · simp only [fetch_sensor_data]
    rw [if_neg (by omega : ¬(400 ≤ status ∧ status < 600))]
    rfl

/-- Counterexample for claim C2: an HTTP 500 for the first location does
not produce an absent result for that location only; fetch_sensor_data
raises and the loop over both locations aborts with the exception, so the
second location is never processed. -/
theorem fetch_failure_aborts_cex :
    fetch_sensor_data (fun _ _ _ _ => 0) 40 44.5 (some 83131)
        (.response 500 (.list [])) = .error "requests.HTTPError"
    ∧ fetch_sensor_data (fun _ _ _ _ => 0) 40 44.5 (some 83131)
        (.response 500 (.list [])) ≠ .ok (none, none)
    ∧ main_fetch_all (fun _ _ _ _ => 0)
        [({ lat := 40, lon := 44.5, sensor_id := some 83131 },
            .response 500 (.list [])),
         ({ lat := 40.2, lon := 44.5, sensor_id := some 80868 },
            .response 200 (.list []))]
        = .error "requests.HTTPError" := by
  refine ⟨rfl, ?_, rfl⟩
  intro h
  exact Except.noConfusion (Eq.trans (Eq.symm rfl) h)
